import Mathlib

/-!
Verification of the command-line argument normalizer of the "Ре-Файл+"
launcher scripts.

The launcher `Запуск.pyw` builds `filtered_args` from `sys.argv`: position 0
is kept as the program identity, and each later token is processed by the
fallback filtering loop (blank drop, `file://` decoding, quote stripping,
flag-like filtering, path-candidate resolution) before `sys.argv` is replaced
and the application entry point is imported and invoked.

Tokens are modelled as lists of characters (`Tok`).  Operating-system
services used by the loop (`os.path.exists`/`os.path.isfile`,
`os.path.normpath`, `os.path.abspath`, `urllib.parse.unquote`,
`sys.platform`, `str.isalpha`) are abstracted into an environment record
`Env`; `abspath` returns `none` when `os.path.abspath` would raise an
`OSError`/`ValueError`, which the loop catches locally.  The control flow of
the loop itself is translated directly from the source.
-/

namespace ReFilePlus

/-- A command-line token, modelled as its character sequence. -/
abbrev Tok := List Char

/-- ASCII whitespace characters removed by Python's `str.strip()`. -/
def pyIsSpace (c : Char) : Bool :=
  c = ' ' || c = '\t' || c = '\n' || c = '\r' || c = '\x0b' || c = '\x0c'

/-- `not arg or not arg.strip()`: the token is empty or all whitespace. -/
def isBlank (t : Tok) : Bool :=
  t.all pyIsSpace

/-- Drop every leading occurrence of `c` (one side of Python `str.strip(c)`). -/
def stripLeading (c : Char) (t : Tok) : Tok :=
  t.dropWhile (· = c)

/-- Drop every trailing occurrence of `c` (the other side of `str.strip(c)`). -/
def stripTrailing (c : Char) (t : Tok) : Tok :=
  (t.reverse.dropWhile (· = c)).reverse

/-- Python `str.strip(c)`: remove all leading and trailing copies of `c`. -/
def pyStripChar (c : Char) (t : Tok) : Tok :=
  stripTrailing c (stripLeading c t)

/-- `arg.strip('"').strip("'")`: strip double quotes, then single quotes. -/
def stripQuotes (t : Tok) : Tok :=
  pyStripChar '\x27' (pyStripChar '"' t)

/-- `pat` is an initial segment of `t` (Python `str.startswith`). -/
def startsWithTok : Tok → Tok → Bool
  | [], _ => true
  | _ :: _, [] => false
  | p :: ps, a :: as => p = a && startsWithTok ps as

/-- Environment of operating-system services used by the filtering loop. -/
structure Env where
  isFile : Tok → Bool
  normpath : Tok → Tok
  abspath : Tok → Option Tok
  unquote : Tok → Tok
  isWin32 : Bool
  pyIsAlpha : Char → Bool

/-- The Windows drive-letter correction inside the `file://` branch: when on
win32 the decoded path starts with a separator followed by a letter and a
colon (`file:///C:/...`), the extra leading separator is removed. -/
def driveFix (env : Env) (fp : Tok) : Tok :=
  match fp with
  | '/' :: c1 :: c2 :: rest =>
      if env.isWin32 && env.pyIsAlpha c1 && (c2 = ':') then c1 :: c2 :: rest
      else '/' :: c1 :: c2 :: rest
  | fp => fp

/-- The scheme recognized by the URL branch: the characters of `file://`. -/
def fileScheme : Tok := ['f', 'i', 'l', 'e', ':', '/', '/']

/-- The `file://` branch: strip the scheme, percent-decode, apply the drive
correction, normalize, and accept the result when it is an existing regular
file; `none` means the branch did not consume the token. -/
def fileUrlTry (env : Env) (arg : Tok) : Option Tok :=
  if startsWithTok fileScheme arg then
    let np := env.normpath (driveFix env (env.unquote (arg.drop 7)))
    if env.isFile np then some np else none
  else none

/-- The `file_exists` computation of the dash branch: the token, after
`normpath`, denotes an existing regular file either directly or after
`abspath` resolution (an `abspath` failure counts as not existing). -/
def flagFileExists (env : Env) (arg : Tok) : Bool :=
  let normalized := env.normpath arg
  if env.isFile normalized then true
  else
    match env.abspath normalized with
    | some a => env.isFile a
    | none => false

/-- The branch for tokens starting with a dash: keep the original token only
when `flagFileExists` holds of it; otherwise drop it. -/
def flagBranch (env : Env) (arg : Tok) : List Tok :=
  if flagFileExists env arg then [arg] else []

/-- The branch for the remaining path candidates: the quote-stripped token is
normalized; if that is an existing regular file it is appended, otherwise the
`abspath` resolution is appended when it is an existing regular file, and the
original token is appended verbatim when resolution fails entirely. -/
def candidateBranch (env : Env) (arg cleaned : Tok) : List Tok :=
  let normalized := env.normpath cleaned
  if env.isFile normalized then [normalized]
  else
    match env.abspath normalized with
    | some a => if env.isFile a then [a] else [arg]
    | none => [arg]

/-- The flag/path-candidate handling a token falls through to when the
`file://` branch does not consume it. -/
def fallThrough (env : Env) (arg : Tok) : List Tok :=
  let cleaned := stripQuotes arg
  if startsWithTok ['-'] arg then flagBranch env arg
  else candidateBranch env arg cleaned

/-- One iteration of the fallback filtering loop: the tokens contributed to
`filtered_args` by a single raw token. -/
def processArg (env : Env) (arg : Tok) : List Tok :=
  if isBlank arg then []
  else
    match fileUrlTry env arg with
    | some p => [p]
    | none => fallThrough env arg

/-- The whole fallback loop over `sys.argv[1:]`, appending each token's
contribution in order. -/
def filterFallback (env : Env) : List Tok → List Tok
  | [] => []
  | a :: as => processArg env a ++ filterFallback env as

/-- The normalizer over the full raw argument vector:
`filtered_args = [sys.argv[0]]` followed by the loop.  On the empty vector
`sys.argv[0]` raises `IndexError`, modelled as `none`. -/
def normalize (env : Env) (args : List Tok) : Option (List Tok) :=
  match args with
  | [] => none
  | a0 :: rest => some (a0 :: filterFallback env rest)

/-! ### Launcher argument-list lifecycle

Both launcher scripts are straight-line top-level code; their operations on
the process argument list and the application entry point are recorded, in
source order, as step traces. -/

/-- An argument-list-relevant operation of a launcher script. -/
inductive LaunchStep where
  | normalizeArgv
  | substituteArgv
  | importEntry
  | invokeMain
deriving DecidableEq, BEq

/-- `Запуск.pyw`: the filtering loop consumes `sys.argv`, then
`sys.argv = filtered_args`, then `from app.entry_point import main`, then
`main()`. -/
def zapuskSteps : List LaunchStep :=
  [.normalizeArgv, .substituteArgv, .importEntry, .invokeMain]

/-- The second launcher (PyQt6 variant): it imports the entry point and
calls `main()` directly, with no argument filtering or substitution. -/
def part000Steps : List LaunchStep :=
  [.importEntry, .invokeMain]

/-- Every launcher script of this source set. -/
def launcherSteps : List (List LaunchStep) :=
  [zapuskSteps, part000Steps]

/-- The lifecycle discipline asserted of a launcher: the raw argument list is
consumed exactly once by the normalizer, the normalized sequence is
substituted exactly once, the consumption precedes the substitution, the
substitution precedes the entry-point import, and the import precedes the
invocation (so no argument-list mutation follows the substitution). -/
def argvDiscipline (l : List LaunchStep) : Bool :=
  (l.count .normalizeArgv == 1) && (l.count .substituteArgv == 1) &&
  decide (l.indexOf LaunchStep.normalizeArgv < l.indexOf LaunchStep.substituteArgv) &&
  decide (l.indexOf LaunchStep.substituteArgv < l.indexOf LaunchStep.importEntry) &&
  decide (l.indexOf LaunchStep.importEntry ≤ l.indexOf LaunchStep.invokeMain)

/-! ### Concrete environments

Small executable environments used to evaluate the definitions at concrete
inputs.  `normpath` is the identity and `unquote` is the identity, which is
what `os.path.normpath` and `urllib.parse.unquote` return on the simple
tokens used below. -/

/-- A file system holding `a` (relative to the working directory) and its
absolutized form `/cwd/a`; `abspath` prepends the working directory. -/
def envRel : Env where
  isFile := fun t => t == "a".data || t == "/cwd/a".data
  normpath := id
  abspath := fun t => some ("/cwd/".data ++ t)
  unquote := id
  isWin32 := false
  pyIsAlpha := Char.isAlpha

/-- A file system holding exactly a file literally named `-x`. -/
def envFlag : Env where
  isFile := fun t => t == "-x".data
  normpath := id
  abspath := fun t => some t
  unquote := id
  isWin32 := false
  pyIsAlpha := Char.isAlpha

/-- A win32-flavoured file system holding exactly `C:/x`. -/
def envWin : Env where
  isFile := fun t => t == "C:/x".data
  normpath := id
  abspath := fun t => some t
  unquote := id
  isWin32 := true
  pyIsAlpha := Char.isAlpha

/-- A file system holding `-x` and `a`. -/
def envMix : Env where
  isFile := fun t => t == "-x".data || t == "a".data
  normpath := id
  abspath := fun t => some t
  unquote := id
  isWin32 := false
  pyIsAlpha := Char.isAlpha

/-- An empty file system on which `os.path.abspath` always raises. -/
def envAbsFail : Env where
  isFile := fun _ => false
  normpath := id
  abspath := fun _ => none
  unquote := id
  isWin32 := false
  pyIsAlpha := Char.isAlpha

/-! ### Helper lemmas -/

/-- Each loop iteration appends at most one token. -/
theorem processArg_length_le_one (env : Env) (arg : Tok) :
    (processArg env arg).length ≤ 1 := by
  unfold processArg fallThrough flagBranch candidateBranch
  repeat' (first | split | simp only [])
  all_goals simp

/-- The loop processes tokens independently: splitting the input splits the
output. -/
theorem filterFallback_append (env : Env) (xs ys : List Tok) :
    filterFallback env (xs ++ ys) =
      filterFallback env xs ++ filterFallback env ys := by
  induction xs with
  | nil => simp [filterFallback]
  | cons a as ih => simp [filterFallback, ih]

/-- The loop never lengthens the argument list. -/
theorem filterFallback_length_le (env : Env) (args : List Tok) :
    (filterFallback env args).length ≤ args.length := by
  induction args with
  | nil => simp [filterFallback]
  | cons a as ih =>
    have h := processArg_length_le_one env a
    simp only [filterFallback, List.length_append, List.length_cons]
    omega

/-- The loop output is the in-order concatenation of the per-token
contributions. -/
theorem filterFallback_eq_join_map (env : Env) (args : List Tok) :
    filterFallback env args = (args.map (processArg env)).flatten := by
  induction args with
  | nil => simp [filterFallback]
  | cons a as ih => simp [filterFallback, ih]

/-- A dash token is never blank, never matches the URL scheme, and is handled
entirely by the dash branch on the original (unstripped) token. -/
theorem processArg_dash (env : Env) (rest : Tok) :
    processArg env ('-' :: rest) = flagBranch env ('-' :: rest) := rfl

/-- A token carrying the `file://` scheme reaches the URL branch, and the
branch evaluates the decoded, drive-corrected, normalized path. -/
theorem fileUrlTry_scheme (env : Env) (rest : Tok) :
    fileUrlTry env (fileScheme ++ rest) =
      if env.isFile (env.normpath (driveFix env (env.unquote rest)))
      then some (env.normpath (driveFix env (env.unquote rest)))
      else none := rfl

/-- A scheme-carrying token is never blank, so `processArg` dispatches on the
URL branch result. -/
theorem processArg_scheme (env : Env) (rest : Tok) :
    processArg env (fileScheme ++ rest) =
      match fileUrlTry env (fileScheme ++ rest) with
      | some p => [p]
      | none => fallThrough env (fileScheme ++ rest) := rfl

/-- A non-blank token not consumed by the URL branch and not starting with a
dash is handled by the path-candidate branch on its quote-stripped form. -/
theorem processArg_candidate (env : Env) (arg : Tok)
    (hb : isBlank arg = false) (hu : fileUrlTry env arg = none)
    (hd : startsWithTok ['-'] arg = false) :
    processArg env arg = candidateBranch env arg (stripQuotes arg) := by
  unfold processArg fallThrough
  rw [hb, hu]
  simp [hd]

/-! ### Claims -/

/-- C1 (counterexample): a relative path candidate that resolves directly is
kept in its normalized, still relative form, not as the resolved absolute
path: under `envRel` the token `a` resolves, its absolutized form `/cwd/a`
is an existing regular file, yet the contribution is `a` and the absolute
path does not appear in it. -/
theorem direct_resolution_keeps_relative_path :
    processArg envRel ['a'] = [['a']] ∧
    envRel.abspath (envRel.normpath (stripQuotes ['a'])) = some ("/cwd/a".data) ∧
    envRel.isFile ("/cwd/a".data) = true ∧
    ("/cwd/a".data) ∉ processArg envRel ['a'] := by
  decide

/-- C1 (amended): for every token after position 0 that does not start with
a dash, once the preceding rules fail to consume it: if the quote-stripped,
normalized token is an existing regular file it is included in exactly that
normalized form (which may remain relative); otherwise, if absolute-path
resolution against the working directory yields an existing regular file,
that absolutized path is included; if resolution fails entirely the original
token is included verbatim; and the token's contribution appears in the
normalizer output at its position. -/
theorem candidate_resolution_output (env : Env) (arg : Tok)
    (hb : isBlank arg = false) (hu : fileUrlTry env arg = none)
    (hd : startsWithTok ['-'] arg = false) :
    (env.isFile (env.normpath (stripQuotes arg)) = true →
      processArg env arg = [env.normpath (stripQuotes arg)]) ∧
    (∀ a, env.isFile (env.normpath (stripQuotes arg)) = false →
      env.abspath (env.normpath (stripQuotes arg)) = some a →
      (env.isFile a = true → processArg env arg = [a]) ∧
      (env.isFile a = false → processArg env arg = [arg])) ∧
    (env.isFile (env.normpath (stripQuotes arg)) = false →
      env.abspath (env.normpath (stripQuotes arg)) = none →
      processArg env arg = [arg]) ∧
    (∀ a0 pre post, normalize env (a0 :: (pre ++ arg :: post)) =
      some (a0 :: (filterFallback env pre ++
        (processArg env arg ++ filterFallback env post)))) := by
  refine ⟨?_, ?_, ?_, ?_⟩
  · intro hf
    rw [processArg_candidate env arg hb hu hd]
    unfold candidateBranch
    simp [hf]
  · intro a hf ha
    rw [processArg_candidate env arg hb hu hd]
    unfold candidateBranch
    constructor <;> intro hfa <;> simp [hf, ha, hfa]
  · intro hf ha
    rw [processArg_candidate env arg hb hu hd]
    unfold candidateBranch
    simp [hf, ha]
  · intro a0 pre post
    have hsplit := filterFallback_append env pre (arg :: post)
    simp only [normalize, hsplit, filterFallback]

/-- C1 (witness): under `envAbsFail` the token `b` fails resolution entirely
and passes through verbatim. -/
theorem candidate_resolution_output_witness :
    processArg envAbsFail ['b'] = [['b']] := by
  have h := candidate_resolution_output envAbsFail ['b']
    (by decide) (by decide) (by decide)
  exact h.2.2.1 (by decide) (by decide)

/-- C2 (counterexample): on the empty argument vector the code raises
(`sys.argv[0]` is an `IndexError`), modelled as `none`: the normalizer is
not total on the empty sequence. -/
theorem normalize_empty_argv_raises : normalize envFlag [] = none := rfl

/-- C2 (amended): for every non-empty input vector the normalizer returns a
sequence; tokens are processed independently, so the output of a
concatenation is the concatenation of the outputs and a token whose
resolution fails never aborts the processing of the remaining tokens
(per-token `abspath` failures are absorbed inside `processArg`). -/
theorem normalize_total_on_nonempty (env : Env) (a0 : Tok)
    (rest xs ys : List Tok) :
    normalize env (a0 :: rest) = some (a0 :: filterFallback env rest) ∧
    filterFallback env (xs ++ ys) =
      filterFallback env xs ++ filterFallback env ys :=
  ⟨rfl, filterFallback_append env xs ys⟩

/-- C3 (counterexample): quote stripping does not reach the dash branch: the
token `-x"` strips to `-x`, which is an existing regular file under
`envFlag`, yet the token is dropped, while the unquoted `-x` is kept. -/
theorem flag_existence_check_not_quote_stripped :
    stripQuotes ("-x\"".data) = "-x".data ∧
    envFlag.isFile (envFlag.normpath (stripQuotes ("-x\"".data))) = true ∧
    processArg envFlag ("-x\"".data) = [] ∧
    processArg envFlag ("-x".data) = ["-x".data] := by
  decide

/-- C3 (amended): for tokens not consumed by the URL branch, surrounding
quotes are stripped before the existence checks only in the non-dash
path-candidate branch; a token starting with a dash is existence-checked as
given, quotes intact (the dash test itself also inspects the original
token). -/
theorem quote_strip_scope (env : Env) (arg : Tok)
    (hb : isBlank arg = false) (hu : fileUrlTry env arg = none) :
    (startsWithTok ['-'] arg = true →
      processArg env arg = flagBranch env arg) ∧
    (startsWithTok ['-'] arg = false →
      processArg env arg = candidateBranch env arg (stripQuotes arg)) := by
  constructor
  · intro hd
    unfold processArg fallThrough
    rw [hb, hu]
    simp [hd]
  · intro hd
    exact processArg_candidate env arg hb hu hd

/-- C3 (witness): both branches of the amended claim at concrete tokens. -/
theorem quote_strip_scope_witness :
    processArg envFlag ("-x".data) = flagBranch envFlag ("-x".data) ∧
    processArg envFlag ("b".data) =
      candidateBranch envFlag ("b".data) (stripQuotes ("b".data)) := by
  constructor
  · exact (quote_strip_scope envFlag ("-x".data)
      (by decide) (by decide)).1 (by decide)
  · exact (quote_strip_scope envFlag ("b".data)
      (by decide) (by decide)).2 (by decide)

/-- C4: a token beginning with `file://` is percent-decoded, scheme-stripped,
drive-corrected (on win32, one leading separator is removed when a letter
and a colon follow), and normalized; when the result is an existing regular
file it is the token's sole contribution, otherwise the original token falls
through to the flag/path-candidate handling. -/
theorem fileUrl_branch_spec (env : Env) (rest : Tok) :
    (env.isFile (env.normpath (driveFix env (env.unquote rest))) = true →
      processArg env (fileScheme ++ rest) =
        [env.normpath (driveFix env (env.unquote rest))]) ∧
    (env.isFile (env.normpath (driveFix env (env.unquote rest))) = false →
      processArg env (fileScheme ++ rest) =
        fallThrough env (fileScheme ++ rest)) := by
  constructor <;> intro h <;>
    rw [processArg_scheme, fileUrlTry_scheme] <;> simp [h]

/-- C4 (witness): `file:///C:/x` on the win32 environment where `C:/x`
exists decodes, drops the extra separator, and is included. -/
theorem fileUrl_branch_spec_witness :
    processArg envWin ("file:///C:/x".data) = ["C:/x".data] := by
  have h := (fileUrl_branch_spec envWin ("/C:/x".data)).1 (by decide)
  exact h

/-- C5: a token after position 0 starting with a dash is kept (as its sole
contribution) iff it resolves, directly after `normpath` or via `abspath`
against the working directory, to an existing regular file, and it is
dropped otherwise. -/
theorem flag_kept_iff_resolves (env : Env) (rest : Tok) :
    (processArg env ('-' :: rest) = ['-' :: rest] ↔
      flagFileExists env ('-' :: rest) = true) ∧
    (flagFileExists env ('-' :: rest) = false →
      processArg env ('-' :: rest) = []) := by
  rw [processArg_dash]
  unfold flagBranch
  cases h : flagFileExists env ('-' :: rest) <;> simp [h]

/-- C5 (witness): the file `-x` is kept; the unrecognized `-state` is
dropped. -/
theorem flag_kept_iff_resolves_witness :
    processArg envFlag ("-x".data) = ["-x".data] ∧
    processArg envFlag ("-state".data) = [] := by
  constructor
  · exact (flag_kept_iff_resolves envFlag ("x".data)).1.mpr (by decide)
  · exact (flag_kept_iff_resolves envFlag ("state".data)).2 (by decide)

/-- C6: the first raw token is preserved unchanged at position 0 and the
rest of the output is the order-preserving concatenation of the per-token
contributions of the remaining input tokens. -/
theorem head_preserved_and_order (env : Env) (a0 : Tok) (rest : List Tok) :
    normalize env (a0 :: rest) =
      some (a0 :: (rest.map (processArg env)).flatten) := by
  simp [normalize, filterFallback_eq_join_map]

/-- C7: whenever the normalizer returns an output vector it is no longer
than the input vector, and each input token contributes at most one output
token. -/
theorem output_length_le_input (env : Env) (args out : List Tok)
    (h : normalize env args = some out) :
    out.length ≤ args.length ∧
    ∀ arg, (processArg env arg).length ≤ 1 := by
  refine ⟨?_, processArg_length_le_one env⟩
  cases args with
  | nil => simp [normalize] at h
  | cons a0 rest =>
    have hout : out = a0 :: filterFallback env rest := by
      simp only [normalize, Option.some.injEq] at h
      exact h.symm
    subst hout
    have hlen := filterFallback_length_le env rest
    simp only [List.length_cons]
    omega

/-- C7 (witness): a two-token input with an unresolvable flag shrinks to a
one-token output. -/
theorem output_length_le_input_witness :
    (["prog".data] : List Tok).length ≤
      (["prog".data, "-q".data] : List Tok).length :=
  (output_length_le_input envFlag ["prog".data, "-q".data] ["prog".data]
    (by decide)).1

/-- C8: an empty or whitespace-only token after position 0 contributes
nothing, and in particular `normalize(["prog", "", "  "])` returns
`["prog"]`. -/
theorem blank_tokens_dropped (env : Env) (arg : Tok)
    (h : isBlank arg = true) :
    processArg env arg = [] ∧
    normalize env ["prog".data, [], [' ', ' ']] = some ["prog".data] := by
  constructor
  · unfold processArg
    rw [h]
    simp
  · rfl

/-- C8 (witness): a whitespace token at a concrete environment. -/
theorem blank_tokens_dropped_witness :
    processArg envFlag [' ', '\t'] = [] :=
  (blank_tokens_dropped envFlag [' ', '\t'] (by decide)).1

/-- C9 (counterexample): the PyQt6 launcher belongs to the source set but
invokes the entry point on the raw argument list: its trace contains no
normalization and no substitution step, so the claimed lifecycle discipline
fails for it. -/
theorem part000_no_normalization :
    launcherSteps.contains part000Steps = true ∧
    argvDiscipline part000Steps = false := by
  decide

/-- C9 (amended): in `Запуск.pyw` the raw argument list is consumed exactly
once by the normalizer and the normalized sequence substituted exactly once,
before the entry point is imported and invoked and with no later
argument-list mutation; the second launcher performs neither normalization
nor substitution. -/
theorem zapusk_argv_discipline :
    argvDiscipline zapuskSteps = true ∧
    part000Steps.count LaunchStep.normalizeArgv = 0 ∧
    part000Steps.count LaunchStep.substituteArgv = 0 := by
  decide

/-- C10: a dash token that resolves to an existing regular file is appended
as the original token exactly as given (not quote-stripped, not normalized,
not absolutized), whereas a resolving non-dash candidate is appended in its
normalized form. -/
theorem flag_appended_verbatim (env : Env) (rest : Tok)
    (h : flagFileExists env ('-' :: rest) = true) :
    processArg env ('-' :: rest) = ['-' :: rest] ∧
    (∀ arg, isBlank arg = false → fileUrlTry env arg = none →
      startsWithTok ['-'] arg = false →
      env.isFile (env.normpath (stripQuotes arg)) = true →
      processArg env arg = [env.normpath (stripQuotes arg)]) := by
  constructor
  · rw [processArg_dash]
    unfold flagBranch
    simp [h]
  · intro arg hb hu hd hf
    rw [processArg_candidate env arg hb hu hd]
    unfold candidateBranch
    simp [hf]

/-- C10 (witness): under `envMix`, the dash file `-x` is kept verbatim and
the candidate `a` is kept in normalized form. -/
theorem flag_appended_verbatim_witness :
    processArg envMix ("-x".data) = ["-x".data] ∧
    processArg envMix ("a".data) = ["a".data] := by
  have h := flag_appended_verbatim envMix ("x".data) (by decide)
  exact ⟨h.1, h.2 ("a".data) (by decide) (by decide) (by decide) (by decide)⟩

end ReFilePlus
